import Mathlib

/-!
Verification of `passport-envato` (`lib/passport-envato/strategy.js`).

The repository is a Passport OAuth2 strategy for Envato.  Its two pieces of
behaviour are:

* the `Strategy` constructor, which resolves endpoint-URL and header defaults
  by writing them into the caller-supplied `options` object, and
* `Strategy.prototype.userProfile`, which performs three sequential
  authenticated GET requests (account, username, email), parses each JSON
  body, and assembles a normalized profile, surfacing transport errors as
  `InternalOAuthError` values and thrown exceptions (JSON parse failures and
  `TypeError`s from property access) directly through the `done` callback.

The embedding below is a shallow one.  JavaScript values produced by
`JSON.parse` are modelled by `JsValue`; property access (`json.account.image`)
is modelled by `memberAccess`, which throws a `TypeError` exactly when the
receiver is `undefined` or `null` and otherwise yields the property value or
`undefined`, matching JavaScript semantics for the property names used here.
`JSON.parse` itself is an external builtin, so it enters as a parameter
`parse : String → Except JsException JsValue`.  The HTTP transport
(`this._oauth2.get`) is likewise a parameter; `userProfile` returns a `Run`
recording, in order, every GET request issued and every invocation of the
`done` callback, so that claims about "no retry", "no subsequent step" and
"callback invoked exactly once" are statable.
-/

set_option autoImplicit false

namespace PassportEnvato

/-- JavaScript values as produced by `JSON.parse`, together with `undefined`,
which property access on an object can yield. -/
inductive JsValue where
  | undefined
  | null
  | bool (b : Bool)
  | num (n : Int)
  | str (s : String)
  | arr (elems : List JsValue)
  | obj (fields : List (String × JsValue))

/-- JavaScript exceptions relevant here: `SyntaxError` from `JSON.parse`
(modelled as `parseError`) and `TypeError` from property access on
`undefined`/`null`. -/
inductive JsException where
  | parseError (msg : String)
  | typeError (msg : String)
deriving DecidableEq

/-- Property lookup on the field list of a JavaScript object: the last
binding of a key wins, as it does for objects built by `JSON.parse`. -/
def jsLookup (fields : List (String × JsValue)) (f : String) : Option JsValue :=
  List.lookup f fields.reverse

/-- JavaScript property access `v.f`: throws a `TypeError` when `v` is
`undefined` or `null`; on an object yields the property value or `undefined`;
on any other value (string, number, boolean, array) yields `undefined` for
the property names this code reads. -/
def memberAccess : JsValue → String → Except JsException JsValue
  | .undefined, f => .error (.typeError ("cannot read property " ++ f ++ " of undefined"))
  | .null, f => .error (.typeError ("cannot read property " ++ f ++ " of null"))
  | .obj fields, f => .ok ((jsLookup fields f).getD .undefined)
  | _, _ => .ok .undefined

/-- The recognised fields of the `options` object passed to the `Strategy`
constructor (`strategy.js` lines 50-66).  `none` models an absent property. -/
structure Options where
  authorizationURL : Option String
  tokenURL : Option String
  customHeaders : Option (List (String × String))
  userAgent : Option String
  userProfileURL : Option String
  userProfileUsername : Option String
  userProfileEmail : Option String
deriving DecidableEq

/-- JavaScript `a || d` for a possibly-absent string `a`: the default is taken
when `a` is absent or falsy (the empty string). -/
def jsOr (a : Option String) (d : String) : String :=
  match a with
  | none => d
  | some s => if s = "" then d else s

/-- Read a header value from a header map (a JavaScript object keyed by
header name, so keys are unique). -/
def getHeader : List (String × String) → String → Option String
  | [], _ => none
  | (k', v) :: t, k => if k' = k then some v else getHeader t k

/-- JavaScript assignment `hs[k] = v` on a header map: overwrite the existing
binding or append a new one. -/
def setHeader : List (String × String) → String → String → List (String × String)
  | [], k, v => [(k, v)]
  | (k', v') :: t, k, v => if k' = k then (k, v) :: t else (k', v') :: setHeader t k v

/-- The truthiness test `!options.customHeaders[k]` from line 57: the header
counts as unset when the key is absent or its value is falsy (empty). -/
def headerUnset (hs : List (String × String)) (k : String) : Bool :=
  match getHeader hs k with
  | none => true
  | some v => v = ""

/-- The strategy object as configured by the constructor: the `name`
(line 62), the three profile URLs (lines 63-65), and the resolved
authorization URL, token URL and header map handed to `OAuth2Strategy`. -/
structure Strategy where
  name : String
  authorizationURL : String
  tokenURL : String
  customHeaders : List (String × String)
  userProfileURL : String
  userProfileUsername : String
  userProfileEmail : String
deriving DecidableEq

/-- The `Strategy` constructor (`strategy.js` lines 50-66).  It resolves
defaults by assigning into the caller-supplied `options` object
(`options.authorizationURL = options.authorizationURL || ...`, etc.), so the
result carries both the options object as it stands after construction and
the configured strategy. -/
def makeStrategy (options : Options) : Options × Strategy :=
  let auth := jsOr options.authorizationURL "https://api.envato.com/authorization"
  let tok := jsOr options.tokenURL "https://api.envato.com/token"
  let hs0 := options.customHeaders.getD []
  let hs := if headerUnset hs0 "User-Agent" then
              setHeader hs0 "User-Agent" (jsOr options.userAgent "passport-envato")
            else hs0
  let resolved := { options with
                    authorizationURL := some auth
                    tokenURL := some tok
                    customHeaders := some hs }
  (resolved,
   { name := "envato"
     authorizationURL := auth
     tokenURL := tok
     customHeaders := hs
     userProfileURL := jsOr options.userProfileURL
       "https://api.envato.com/v1/market/private/user/account.json"
     userProfileUsername := jsOr options.userProfileUsername
       "https://api.envato.com/v1/market/private/user/username.json"
     userProfileEmail := jsOr options.userProfileEmail
       "https://api.envato.com/v1/market/private/user/email.json" })

/-- Outcome of one `this._oauth2.get(url, accessToken, cb)` call, as seen by
the callback `(err, body, res)`: either a truthy `err` of transport-error
type `τ`, or a response body. -/
inductive GetResult (τ : Type) where
  | err (e : τ)
  | ok (body : String)

/-- The external `JSON.parse` builtin: either a parsed value or a thrown
`SyntaxError`. -/
abbrev Parse := String → Except JsException JsValue

/-- The normalized profile assembled by `userProfile` (lines 91-114). -/
structure Profile where
  provider : String
  image : JsValue
  firstname : JsValue
  surname : JsValue
  available_earnings : JsValue
  total_deposits : JsValue
  balance : JsValue
  country : JsValue
  _raw : String
  _json : JsValue
  username : JsValue
  email : JsValue

/-- Errors passed to `done`: an `InternalOAuthError` wrapping a stage comment
and the transport error (lines 86, 104, 110), or an exception caught by one
of the `try`/`catch` blocks and forwarded as-is (`done(e)`). -/
inductive FetchError (τ : Type) where
  | internalOAuthError (comment : String) (err : τ)
  | thrown (e : JsException)

/-- The observable behaviour of one `userProfile` invocation: the GET
requests issued, in order, as `(url, accessToken)` pairs, and the arguments
of every `done` invocation. -/
structure Run (τ : Type) where
  calls : List (String × String)
  dones : List (Except (FetchError τ) Profile)

/-- The fields read from the parsed account response, in source order
(lines 89-101): each is `json.account.<field>`, any of which can throw. -/
structure AccountData where
  image : JsValue
  firstname : JsValue
  surname : JsValue
  available_earnings : JsValue
  total_deposits : JsValue
  balance : JsValue
  country : JsValue
  json : JsValue

/-- The body of the first `try` block up to line 101: parse the account body
and read the seven `json.account.*` properties. -/
def accountStep (parse : Parse) (body : String) : Except JsException AccountData := do
  let json ← parse body
  let image ← memberAccess json "account" >>= fun a => memberAccess a "image"
  let firstname ← memberAccess json "account" >>= fun a => memberAccess a "firstname"
  let surname ← memberAccess json "account" >>= fun a => memberAccess a "surname"
  let available_earnings ← memberAccess json "account" >>= fun a =>
    memberAccess a "available_earnings"
  let total_deposits ← memberAccess json "account" >>= fun a =>
    memberAccess a "total_deposits"
  let balance ← memberAccess json "account" >>= fun a => memberAccess a "balance"
  let country ← memberAccess json "account" >>= fun a => memberAccess a "country"
  pure ⟨image, firstname, surname, available_earnings, total_deposits, balance, country, json⟩

/-- The second `try` block (lines 105-107): parse the username body and read
`json.username`. -/
def usernameStep (parse : Parse) (body : String) : Except JsException JsValue := do
  let json ← parse body
  memberAccess json "username"

/-- The third `try` block (lines 112-114): parse the email body and read
`json.email`. -/
def emailStep (parse : Parse) (body : String) : Except JsException JsValue := do
  let json ← parse body
  memberAccess json "email"

/-- `Strategy.prototype.userProfile` (lines 83-132), with the HTTP transport
`get` and `JSON.parse` as parameters.  The three GETs are strictly
sequential; each transport error produces an `InternalOAuthError` tagged with
its stage, each caught exception is forwarded unwrapped, and the profile is
completed only after all three steps succeed. -/
def userProfile {τ : Type} (parse : Parse) (strat : Strategy)
    (get : String → String → GetResult τ) (accessToken : String) : Run τ :=
  match get strat.userProfileURL accessToken with
  | .err e =>
    ⟨[(strat.userProfileURL, accessToken)],
     [.error (.internalOAuthError "failed to fetch user profile" e)]⟩
  | .ok body =>
    match accountStep parse body with
    | .error e => ⟨[(strat.userProfileURL, accessToken)], [.error (.thrown e)]⟩
    | .ok acct =>
      match get strat.userProfileUsername accessToken with
      | .err e =>
        ⟨[(strat.userProfileURL, accessToken), (strat.userProfileUsername, accessToken)],
         [.error (.internalOAuthError "failed to fetch username" e)]⟩
      | .ok body2 =>
        match usernameStep parse body2 with
        | .error e =>
          ⟨[(strat.userProfileURL, accessToken), (strat.userProfileUsername, accessToken)],
           [.error (.thrown e)]⟩
        | .ok uname =>
          match get strat.userProfileEmail accessToken with
          | .err e =>
            ⟨[(strat.userProfileURL, accessToken), (strat.userProfileUsername, accessToken),
              (strat.userProfileEmail, accessToken)],
             [.error (.internalOAuthError "failed to fetch email" e)]⟩
          | .ok body3 =>
            match emailStep parse body3 with
            | .error e =>
              ⟨[(strat.userProfileURL, accessToken), (strat.userProfileUsername, accessToken),
                (strat.userProfileEmail, accessToken)],
               [.error (.thrown e)]⟩
            | .ok em =>
              ⟨[(strat.userProfileURL, accessToken), (strat.userProfileUsername, accessToken),
                (strat.userProfileEmail, accessToken)],
               [.ok { provider := "envato"
                      image := acct.image
                      firstname := acct.firstname
                      surname := acct.surname
                      available_earnings := acct.available_earnings
                      total_deposits := acct.total_deposits
                      balance := acct.balance
                      country := acct.country
                      _raw := body
                      _json := acct.json
                      username := uname
                      email := em }]⟩

/-! Concrete mock data used by witnesses: the response bodies from the spec,
a `JSON.parse` oracle defined on them, the default-configured strategy, and a
transport serving the three profile endpoints. -/

/-- The mocked account response body from the spec. -/
def accountBody : String :=
  "\x7b\"account\":\x7b\"image\":\"i\",\"firstname\":\"F\",\"surname\":\"S\",\"available_earnings\":\"1\",\"total_deposits\":\"2\",\"balance\":\"3\",\"country\":\"C\"\x7d\x7d"

/-- The mocked username response body from the spec. -/
def usernameBody : String := "\x7b\"username\":\"u\"\x7d"

/-- The mocked email response body from the spec. -/
def emailBody : String := "\x7b\"email\":\"e@x.com\"\x7d"

/-- The parsed value of `accountBody`. -/
def accountJson : JsValue :=
  .obj [("account", .obj [("image", .str "i"), ("firstname", .str "F"),
    ("surname", .str "S"), ("available_earnings", .str "1"),
    ("total_deposits", .str "2"), ("balance", .str "3"), ("country", .str "C")])]

/-- A response body holding an empty JSON object. -/
def emptyObjBody : String := "\x7b\x7d"

/-- A response body whose `account` field is a string rather than an
object. -/
def strAccountBody : String := "\x7b\"account\":\"x\"\x7d"

/-- A `JSON.parse` oracle defined on the mock bodies; every other string is
rejected with a parse failure. -/
def mockParse : Parse := fun s =>
  if s = accountBody then .ok accountJson
  else if s = usernameBody then .ok (.obj [("username", .str "u")])
  else if s = emailBody then .ok (.obj [("email", .str "e@x.com")])
  else if s = emptyObjBody then .ok (.obj [])
  else if s = strAccountBody then .ok (.obj [("account", .str "x")])
  else .error (.parseError "unexpected token")

/-- An options object with every recognised property absent. -/
def emptyOptions : Options := ⟨none, none, none, none, none, none, none⟩

/-- The strategy configured from `emptyOptions`: every URL takes its
default. -/
def defaultStrategy : Strategy := (makeStrategy emptyOptions).2

/-- A mock transport answering the three default profile endpoints with the
mock bodies. -/
def mockGet : String → String → GetResult String := fun url _ =>
  if url = defaultStrategy.userProfileURL then .ok accountBody
  else if url = defaultStrategy.userProfileUsername then .ok usernameBody
  else if url = defaultStrategy.userProfileEmail then .ok emailBody
  else .err "unknown url"

/-- The account data extracted from the mocked account response. -/
def mockAccountData : AccountData :=
  ⟨.str "i", .str "F", .str "S", .str "1", .str "2", .str "3", .str "C", accountJson⟩

/-- A transport failing at the account request. -/
def failGet1 : String → String → GetResult String := fun _ _ => .err "boom"

/-- A transport failing at the username request only. -/
def failGet2 : String → String → GetResult String := fun url tok =>
  if url = defaultStrategy.userProfileUsername then .err "boom" else mockGet url tok

/-- A transport failing at the email request only. -/
def failGet3 : String → String → GetResult String := fun url tok =>
  if url = defaultStrategy.userProfileEmail then .err "boom" else mockGet url tok

/-- A transport answering the account request with a non-JSON body. -/
def badGet1 : String → String → GetResult String := fun url tok =>
  if url = defaultStrategy.userProfileURL then .ok "nonsense" else mockGet url tok

/-- A transport answering the username request with a non-JSON body. -/
def badGet2 : String → String → GetResult String := fun url tok =>
  if url = defaultStrategy.userProfileUsername then .ok "nonsense" else mockGet url tok

/-- A transport answering the email request with a non-JSON body. -/
def badGet3 : String → String → GetResult String := fun url tok =>
  if url = defaultStrategy.userProfileEmail then .ok "nonsense" else mockGet url tok

/-- An options object whose header map already binds `User-Agent`, to the
empty string. -/
def presentEmptyUAOptions : Options :=
  ⟨none, none, some [("User-Agent", "")], none, none, none, none⟩

/-- A transport that behaves like `mockGet` on the three profile endpoints
but differs from it elsewhere. -/
def mockGetVariant : String → String → GetResult String := fun url tok =>
  if url = "https://other.example/x" then .err "different elsewhere"
  else mockGet url tok

/-- A transport whose account response is valid JSON in which `account` is a
string rather than an object, and whose username and email responses are
empty JSON objects. -/
def strAccountGet : String → String → GetResult String := fun url _ =>
  if url = defaultStrategy.userProfileURL then .ok strAccountBody
  else if url = defaultStrategy.userProfileUsername then .ok emptyObjBody
  else if url = defaultStrategy.userProfileEmail then .ok emptyObjBody
  else .err "unknown url"

/-- A transport whose account response is an empty JSON object, so that
`json.account` is `undefined`. -/
def noAccountGet : String → String → GetResult String := fun url _ =>
  if url = defaultStrategy.userProfileURL then .ok emptyObjBody
  else .err "unknown url"

/-- A transport whose username response is an empty JSON object and whose
other responses are the mocks. -/
def noUsernameGet : String → String → GetResult String := fun url tok =>
  if url = defaultStrategy.userProfileUsername then .ok emptyObjBody
  else mockGet url tok

/-- A transport whose email response is an empty JSON object and whose other
responses are the mocks. -/
def noEmailGet : String → String → GetResult String := fun url tok =>
  if url = defaultStrategy.userProfileEmail then .ok emptyObjBody
  else mockGet url tok

/-- Whether a `done` invocation carries a thrown `TypeError` (as opposed to
a profile, a stage-labelled `InternalOAuthError`, or a parse failure). -/
def isThrownTypeError {τ : Type} : Except (FetchError τ) Profile → Bool
  | .error (.thrown (.typeError _)) => true
  | _ => false

/-! Reduction lemmas for `Except` binds and header updates, used to evaluate
the step functions and the constructor once a hypothesis fixes their
inputs. -/

theorem exceptBind_ok {ε α β : Type} (a : α) (f : α → Except ε β) :
    ((Except.ok a : Except ε α) >>= f) = f a := rfl

theorem exceptBind_error {ε α β : Type} (e : ε) (f : α → Except ε β) :
    ((Except.error e : Except ε α) >>= f) = .error e := rfl

theorem getHeader_setHeader (hs : List (String × String)) (k v : String) :
    getHeader (setHeader hs k v) k = some v := by
  induction hs with
  | nil => simp [getHeader, setHeader]
  | cons p t ih =>
    by_cases h : p.1 = k <;>
    simp [getHeader, setHeader, h, ih]

/-- C1: if the account GET succeeds with the mocked account JSON, the
username GET with JSON giving username `u`, and the email GET with JSON
giving email `e@x.com`, then `userProfile` invokes `done` exactly once, with
a profile whose provider is `envato`, whose account fields are the mocked
values, whose username and email are `u` and `e@x.com`, and whose `_raw` and
`_json` fields hold the raw body and parsed JSON of the account response. -/
theorem userProfile_success_normalized {τ : Type} (parse : Parse) (strat : Strategy)
    (get : String → String → GetResult τ) (tok b1 b2 b3 : String)
    (h1 : get strat.userProfileURL tok = .ok b1)
    (hp1 : parse b1 = .ok accountJson)
    (h2 : get strat.userProfileUsername tok = .ok b2)
    (hp2 : parse b2 = .ok (.obj [("username", .str "u")]))
    (h3 : get strat.userProfileEmail tok = .ok b3)
    (hp3 : parse b3 = .ok (.obj [("email", .str "e@x.com")])) :
    (userProfile parse strat get tok).dones =
      [.ok { provider := "envato", image := .str "i", firstname := .str "F",
             surname := .str "S", available_earnings := .str "1",
             total_deposits := .str "2", balance := .str "3", country := .str "C",
             _raw := b1, _json := accountJson,
             username := .str "u", email := .str "e@x.com" }] := by
  have ha : accountStep parse b1 =
      .ok ⟨.str "i", .str "F", .str "S", .str "1", .str "2", .str "3", .str "C",
        accountJson⟩ := by
    unfold accountStep
    rw [hp1]
    rfl
  have hu : usernameStep parse b2 = .ok (.str "u") := by
    unfold usernameStep
    rw [hp2]
    rfl
  have he : emailStep parse b3 = .ok (.str "e@x.com") := by
    unfold emailStep
    rw [hp3]
    rfl
  simp only [userProfile, h1, ha, h2, hu, h3, he]

/-- Witness for C1: the theorem applied to the mock parse oracle, the
default strategy and the mock transport. -/
theorem userProfile_success_normalized_witness :
    (userProfile mockParse defaultStrategy mockGet "tok").dones =
      [.ok { provider := "envato", image := .str "i", firstname := .str "F",
             surname := .str "S", available_earnings := .str "1",
             total_deposits := .str "2", balance := .str "3", country := .str "C",
             _raw := accountBody, _json := accountJson,
             username := .str "u", email := .str "e@x.com" }] :=
  userProfile_success_normalized mockParse defaultStrategy mockGet "tok"
    accountBody usernameBody emailBody rfl rfl rfl rfl rfl rfl

/-- C4: for every transport, parse oracle and access token, one invocation of
`userProfile` invokes the `done` callback exactly once. -/
theorem userProfile_done_exactly_once {τ : Type} (parse : Parse) (strat : Strategy)
    (get : String → String → GetResult τ) (tok : String) :
    (userProfile parse strat get tok).dones.length = 1 := by
  unfold userProfile
  repeat' split
  all_goals rfl

/-- C2: whichever of the three steps first reports a transport error, the run
consists of exactly the requests up to and including that step (no retry, no
later step), and of a single `done` invocation carrying an
`InternalOAuthError` that wraps the stage label of that step together with
the transport error. -/
theorem userProfile_transport_error_stages {τ : Type} (parse : Parse) (strat : Strategy)
    (get : String → String → GetResult τ) (tok : String) :
    (∀ e, get strat.userProfileURL tok = .err e →
      userProfile parse strat get tok =
        ⟨[(strat.userProfileURL, tok)],
         [.error (.internalOAuthError "failed to fetch user profile" e)]⟩) ∧
    (∀ b1 acct e, get strat.userProfileURL tok = .ok b1 →
      accountStep parse b1 = .ok acct →
      get strat.userProfileUsername tok = .err e →
      userProfile parse strat get tok =
        ⟨[(strat.userProfileURL, tok), (strat.userProfileUsername, tok)],
         [.error (.internalOAuthError "failed to fetch username" e)]⟩) ∧
    (∀ b1 acct b2 un e, get strat.userProfileURL tok = .ok b1 →
      accountStep parse b1 = .ok acct →
      get strat.userProfileUsername tok = .ok b2 →
      usernameStep parse b2 = .ok un →
      get strat.userProfileEmail tok = .err e →
      userProfile parse strat get tok =
        ⟨[(strat.userProfileURL, tok), (strat.userProfileUsername, tok),
          (strat.userProfileEmail, tok)],
         [.error (.internalOAuthError "failed to fetch email" e)]⟩) := by
  refine ⟨fun e h => ?_, fun b1 acct e h1 ha h2 => ?_,
    fun b1 acct b2 un e h1 ha h2 hu h3 => ?_⟩ <;>
  simp only [userProfile, *]

/-- Witness for C2: the theorem applied to transports failing at each of the
three stages in turn. -/
theorem userProfile_transport_error_stages_witness :
    userProfile mockParse defaultStrategy failGet1 "tok" =
      ⟨[(defaultStrategy.userProfileURL, "tok")],
       [.error (.internalOAuthError "failed to fetch user profile" "boom")]⟩ ∧
    userProfile mockParse defaultStrategy failGet2 "tok" =
      ⟨[(defaultStrategy.userProfileURL, "tok"),
        (defaultStrategy.userProfileUsername, "tok")],
       [.error (.internalOAuthError "failed to fetch username" "boom")]⟩ ∧
    userProfile mockParse defaultStrategy failGet3 "tok" =
      ⟨[(defaultStrategy.userProfileURL, "tok"),
        (defaultStrategy.userProfileUsername, "tok"),
        (defaultStrategy.userProfileEmail, "tok")],
       [.error (.internalOAuthError "failed to fetch email" "boom")]⟩ :=
  ⟨(userProfile_transport_error_stages mockParse defaultStrategy failGet1 "tok").1
      "boom" rfl,
   (userProfile_transport_error_stages mockParse defaultStrategy failGet2 "tok").2.1
      accountBody mockAccountData "boom" rfl rfl rfl,
   (userProfile_transport_error_stages mockParse defaultStrategy failGet3 "tok").2.2
      accountBody mockAccountData usernameBody (.str "u") "boom" rfl rfl rfl rfl rfl⟩

/-- C3: whichever of the three steps first receives a body that `JSON.parse`
rejects, the run consists of exactly the requests up to and including that
step, and of a single `done` invocation carrying the parse failure itself:
no profile, partial or complete, is ever passed to `done`. -/
theorem userProfile_parse_error_stages {τ : Type} (parse : Parse) (strat : Strategy)
    (get : String → String → GetResult τ) (tok : String) :
    (∀ b1 e, get strat.userProfileURL tok = .ok b1 →
      parse b1 = .error e →
      userProfile parse strat get tok =
        ⟨[(strat.userProfileURL, tok)], [.error (.thrown e)]⟩) ∧
    (∀ b1 acct b2 e, get strat.userProfileURL tok = .ok b1 →
      accountStep parse b1 = .ok acct →
      get strat.userProfileUsername tok = .ok b2 →
      parse b2 = .error e →
      userProfile parse strat get tok =
        ⟨[(strat.userProfileURL, tok), (strat.userProfileUsername, tok)],
         [.error (.thrown e)]⟩) ∧
    (∀ b1 acct b2 un b3 e, get strat.userProfileURL tok = .ok b1 →
      accountStep parse b1 = .ok acct →
      get strat.userProfileUsername tok = .ok b2 →
      usernameStep parse b2 = .ok un →
      get strat.userProfileEmail tok = .ok b3 →
      parse b3 = .error e →
      userProfile parse strat get tok =
        ⟨[(strat.userProfileURL, tok), (strat.userProfileUsername, tok),
          (strat.userProfileEmail, tok)],
         [.error (.thrown e)]⟩) := by
  refine ⟨fun b1 e h1 hp => ?_, fun b1 acct b2 e h1 ha h2 hp => ?_,
    fun b1 acct b2 un b3 e h1 ha h2 hu h3 hp => ?_⟩
  · have hs : accountStep parse b1 = .error e := by
      unfold accountStep
      rw [hp]
      rfl
    simp only [userProfile, h1, hs]
  · have hs : usernameStep parse b2 = .error e := by
      unfold usernameStep
      rw [hp]
      rfl
    simp only [userProfile, h1, ha, h2, hs]
  · have hs : emailStep parse b3 = .error e := by
      unfold emailStep
      rw [hp]
      rfl
    simp only [userProfile, h1, ha, h2, hu, h3, hs]

/-- Witness for C3: the theorem applied to transports serving a non-JSON
body at each of the three stages in turn. -/
theorem userProfile_parse_error_stages_witness :
    userProfile mockParse defaultStrategy badGet1 "tok" =
      ⟨[(defaultStrategy.userProfileURL, "tok")],
       [.error (.thrown (.parseError "unexpected token"))]⟩ ∧
    userProfile mockParse defaultStrategy badGet2 "tok" =
      ⟨[(defaultStrategy.userProfileURL, "tok"),
        (defaultStrategy.userProfileUsername, "tok")],
       [.error (.thrown (.parseError "unexpected token"))]⟩ ∧
    userProfile mockParse defaultStrategy badGet3 "tok" =
      ⟨[(defaultStrategy.userProfileURL, "tok"),
        (defaultStrategy.userProfileUsername, "tok"),
        (defaultStrategy.userProfileEmail, "tok")],
       [.error (.thrown (.parseError "unexpected token"))]⟩ :=
  ⟨(userProfile_parse_error_stages mockParse defaultStrategy badGet1 "tok").1
      "nonsense" (.parseError "unexpected token") rfl rfl,
   (userProfile_parse_error_stages mockParse defaultStrategy badGet2 "tok").2.1
      accountBody mockAccountData "nonsense" (.parseError "unexpected token")
      rfl rfl rfl rfl,
   (userProfile_parse_error_stages mockParse defaultStrategy badGet3 "tok").2.2
      accountBody mockAccountData usernameBody (.str "u") "nonsense"
      (.parseError "unexpected token") rfl rfl rfl rfl rfl rfl⟩

/-- C5: every endpoint-URL option left out of the configuration resolves to
its documented fixed default. -/
theorem strategy_default_urls (opts : Options) :
    (opts.authorizationURL = none →
      (makeStrategy opts).2.authorizationURL = "https://api.envato.com/authorization") ∧
    (opts.tokenURL = none →
      (makeStrategy opts).2.tokenURL = "https://api.envato.com/token") ∧
    (opts.userProfileURL = none →
      (makeStrategy opts).2.userProfileURL =
        "https://api.envato.com/v1/market/private/user/account.json") ∧
    (opts.userProfileUsername = none →
      (makeStrategy opts).2.userProfileUsername =
        "https://api.envato.com/v1/market/private/user/username.json") ∧
    (opts.userProfileEmail = none →
      (makeStrategy opts).2.userProfileEmail =
        "https://api.envato.com/v1/market/private/user/email.json") := by
  refine ⟨fun h => ?_, fun h => ?_, fun h => ?_, fun h => ?_, fun h => ?_⟩ <;>
  simp [makeStrategy, jsOr, h]

/-- Witness for C5: the strategy built from an options object with every
property absent carries the five documented defaults. -/
theorem strategy_default_urls_witness :
    (makeStrategy emptyOptions).2.authorizationURL =
      "https://api.envato.com/authorization" ∧
    (makeStrategy emptyOptions).2.tokenURL = "https://api.envato.com/token" ∧
    (makeStrategy emptyOptions).2.userProfileURL =
      "https://api.envato.com/v1/market/private/user/account.json" ∧
    (makeStrategy emptyOptions).2.userProfileUsername =
      "https://api.envato.com/v1/market/private/user/username.json" ∧
    (makeStrategy emptyOptions).2.userProfileEmail =
      "https://api.envato.com/v1/market/private/user/email.json" :=
  ⟨(strategy_default_urls emptyOptions).1 rfl,
   (strategy_default_urls emptyOptions).2.1 rfl,
   (strategy_default_urls emptyOptions).2.2.1 rfl,
   (strategy_default_urls emptyOptions).2.2.2.1 rfl,
   (strategy_default_urls emptyOptions).2.2.2.2 rfl⟩

/-- Counterexample to C6 as stated: a `User-Agent` entry that is already
present in the header map is nonetheless replaced when its value is the
empty string, because line 57 tests JavaScript truthiness of the value, not
presence of the key. -/
theorem userAgent_present_empty_counterexample :
    getHeader [("User-Agent", "")] "User-Agent" = some "" ∧
    getHeader (makeStrategy presentEmptyUAOptions).2.customHeaders "User-Agent" =
      some "passport-envato" :=
  ⟨rfl, rfl⟩

/-- C6 (amended): when the header map has no truthy `User-Agent` value (key
absent or value empty), construction sets the header to the `userAgent`
option if that is a non-empty string and to `"passport-envato"` otherwise —
in particular an empty `userAgent` option also falls back to
`"passport-envato"`; a `User-Agent` entry with a non-empty value is left
unchanged. -/
theorem userAgent_header_resolution (opts : Options) :
    (getHeader (opts.customHeaders.getD []) "User-Agent" = none →
      opts.userAgent = none →
      getHeader (makeStrategy opts).2.customHeaders "User-Agent" =
        some "passport-envato") ∧
    (∀ ua, getHeader (opts.customHeaders.getD []) "User-Agent" = none →
      opts.userAgent = some ua → ua ≠ "" →
      getHeader (makeStrategy opts).2.customHeaders "User-Agent" = some ua) ∧
    (∀ v, getHeader (opts.customHeaders.getD []) "User-Agent" = some v → v ≠ "" →
      getHeader (makeStrategy opts).2.customHeaders "User-Agent" = some v) ∧
    (getHeader (opts.customHeaders.getD []) "User-Agent" = some "" →
      getHeader (makeStrategy opts).2.customHeaders "User-Agent" =
        some (jsOr opts.userAgent "passport-envato")) ∧
    (getHeader (opts.customHeaders.getD []) "User-Agent" = none →
      opts.userAgent = some "" →
      getHeader (makeStrategy opts).2.customHeaders "User-Agent" =
        some "passport-envato") := by
  refine ⟨fun hu hua => ?_, fun ua hu hua hne => ?_, fun v hv hne => ?_, fun hv => ?_,
    fun hu hua => ?_⟩
  · simp [makeStrategy, headerUnset, hu, hua, jsOr, getHeader_setHeader]
  · simp [makeStrategy, headerUnset, hu, hua, jsOr, hne, getHeader_setHeader]
  · simp [makeStrategy, headerUnset, hv, hne]
  · simp [makeStrategy, headerUnset, hv, getHeader_setHeader]
  · simp [makeStrategy, headerUnset, hu, hua, jsOr, getHeader_setHeader]

/-- Witness for C6 (amended): concrete instances — no entry and no
`userAgent` option, no entry and a non-empty `userAgent` option, a present
non-empty entry, and no entry with an empty `userAgent` option. -/
theorem userAgent_header_resolution_witness :
    getHeader (makeStrategy emptyOptions).2.customHeaders "User-Agent" =
      some "passport-envato" ∧
    getHeader
      (makeStrategy ⟨none, none, none, some "myapp.com", none, none, none⟩).2.customHeaders
      "User-Agent" = some "myapp.com" ∧
    getHeader
      (makeStrategy
        ⟨none, none, some [("User-Agent", "custom")], none, none, none, none⟩).2.customHeaders
      "User-Agent" = some "custom" ∧
    getHeader
      (makeStrategy ⟨none, none, none, some "", none, none, none⟩).2.customHeaders
      "User-Agent" = some "passport-envato" :=
  ⟨(userAgent_header_resolution emptyOptions).1 rfl rfl,
   (userAgent_header_resolution
      ⟨none, none, none, some "myapp.com", none, none, none⟩).2.1
      "myapp.com" rfl rfl (by decide),
   (userAgent_header_resolution
      ⟨none, none, some [("User-Agent", "custom")], none, none, none, none⟩).2.2.1
      "custom" rfl (by decide),
   (userAgent_header_resolution
      ⟨none, none, none, some "", none, none, none⟩).2.2.2.2 rfl rfl⟩

/-- Counterexample to C7 as stated: construction does mutate the
caller-supplied options object — after constructing from an options object
with every property absent, the object is no longer equal to what the caller
supplied. -/
theorem options_mutation_counterexample :
    (makeStrategy emptyOptions).1 ≠ emptyOptions := by
  intro h
  have h2 := congrArg Options.authorizationURL h
  simp [makeStrategy, emptyOptions, jsOr] at h2

/-- C7 (amended): construction resolves defaults by writing the effective
authorization URL, token URL and header map back into the caller-supplied
options object, while leaving its remaining properties unchanged; the
strategy's configuration equals what was written back. -/
theorem constructor_mutates_options (opts : Options) :
    (makeStrategy opts).1.userProfileURL = opts.userProfileURL ∧
    (makeStrategy opts).1.userProfileUsername = opts.userProfileUsername ∧
    (makeStrategy opts).1.userProfileEmail = opts.userProfileEmail ∧
    (makeStrategy opts).1.userAgent = opts.userAgent ∧
    (makeStrategy opts).1.authorizationURL = some (makeStrategy opts).2.authorizationURL ∧
    (makeStrategy opts).1.tokenURL = some (makeStrategy opts).2.tokenURL ∧
    (makeStrategy opts).1.customHeaders = some (makeStrategy opts).2.customHeaders :=
  ⟨rfl, rfl, rfl, rfl, rfl, rfl, rfl⟩

/-- C8: `userProfile` is a function of the parse oracle, the configured
URLs, the access token and the transport's answers to the three requests it
issues — two invocations against transports that agree on those three
requests produce equal runs, so repeating an invocation with the same
mocked responses yields structurally equal profiles and no state leaks
across invocations. -/
theorem userProfile_no_shared_state {τ : Type} (parse : Parse) (strat : Strategy)
    (get get' : String → String → GetResult τ) (tok : String)
    (h1 : get' strat.userProfileURL tok = get strat.userProfileURL tok)
    (h2 : get' strat.userProfileUsername tok = get strat.userProfileUsername tok)
    (h3 : get' strat.userProfileEmail tok = get strat.userProfileEmail tok) :
    userProfile parse strat get' tok = userProfile parse strat get tok := by
  unfold userProfile
  rw [h1, h2, h3]

/-- Witness for C8: a transport differing from `mockGet` away from the three
profile endpoints produces the same run. -/
theorem userProfile_no_shared_state_witness :
    userProfile mockParse defaultStrategy mockGetVariant "tok" =
      userProfile mockParse defaultStrategy mockGet "tok" :=
  userProfile_no_shared_state mockParse defaultStrategy mockGet mockGetVariant
    "tok" rfl rfl rfl

/-- Counterexample to C9 as stated: a valid account JSON whose `account`
field is a string — so no object-valued `account` field exists — does not
make `json.account.image` throw.  Property access on a string yields
`undefined`, so the run proceeds through the username and email requests and
`done` receives a profile (with `undefined` account fields), not an
exception. -/
theorem nonobject_account_counterexample :
    userProfile mockParse defaultStrategy strAccountGet "tok" =
      ⟨[(defaultStrategy.userProfileURL, "tok"),
        (defaultStrategy.userProfileUsername, "tok"),
        (defaultStrategy.userProfileEmail, "tok")],
       [.ok { provider := "envato", image := .undefined, firstname := .undefined,
              surname := .undefined, available_earnings := .undefined,
              total_deposits := .undefined, balance := .undefined, country := .undefined,
              _raw := strAccountBody, _json := .obj [("account", .str "x")],
              username := .undefined, email := .undefined }]⟩ := rfl

/-- C9 (amended): if the account GET succeeds and its body is valid JSON but
`json.account` evaluates to `undefined` or `null` (the field is absent or
`null`, or the top-level JSON value is `null`), then `json.account.image`
throws a `TypeError`, the thrown exception is passed to `done` as the error
— neither stage-labelled as an `InternalOAuthError` nor a JSON parse
failure — and the username and email requests are not attempted. -/
theorem account_access_typeError {τ : Type} (parse : Parse) (strat : Strategy)
    (get : String → String → GetResult τ) (tok b : String) (j : JsValue)
    (h1 : get strat.userProfileURL tok = .ok b)
    (hp : parse b = .ok j)
    (hacc : j = .null ∨ memberAccess j "account" = .ok .undefined ∨
      memberAccess j "account" = .ok .null) :
    (userProfile parse strat get tok).calls = [(strat.userProfileURL, tok)] ∧
    (userProfile parse strat get tok).dones.map isThrownTypeError = [true] := by
  rcases hacc with h | h | h
  · have ha : accountStep parse b =
        .error (.typeError ("cannot read property " ++ "account" ++ " of null")) := by
      unfold accountStep
      rw [hp, h]
      rfl
    simp only [userProfile, h1, ha]
    exact ⟨trivial, rfl⟩
  · have ha : accountStep parse b =
        .error (.typeError ("cannot read property " ++ "image" ++ " of undefined")) := by
      unfold accountStep
      rw [hp]
      simp only [exceptBind_ok, h]
      rfl
    simp only [userProfile, h1, ha]
    exact ⟨trivial, rfl⟩
  · have ha : accountStep parse b =
        .error (.typeError ("cannot read property " ++ "image" ++ " of null")) := by
      unfold accountStep
      rw [hp]
      simp only [exceptBind_ok, h]
      rfl
    simp only [userProfile, h1, ha]
    exact ⟨trivial, rfl⟩

/-- Witness for C9 (amended): an account response that is an empty JSON
object makes the run stop after one request with a thrown `TypeError`. -/
theorem account_access_typeError_witness :
    (userProfile mockParse defaultStrategy noAccountGet "tok").calls =
      [(defaultStrategy.userProfileURL, "tok")] ∧
    (userProfile mockParse defaultStrategy noAccountGet "tok").dones.map
      isThrownTypeError = [true] :=
  account_access_typeError mockParse defaultStrategy noAccountGet "tok"
    emptyObjBody (.obj []) rfl rfl (Or.inr (Or.inl rfl))

/-- C10: when the username or the email response is a JSON object that
merely lacks the expected field, the run does not fail: it proceeds through
the remaining steps and `done` receives a complete profile whose `username`
(resp. `email`) field is `undefined`. -/
theorem missing_optional_fields_tolerated {τ : Type} (parse : Parse) (strat : Strategy)
    (get : String → String → GetResult τ) (tok : String) :
    (∀ b1 acct b2 fs2 b3 em,
      get strat.userProfileURL tok = .ok b1 →
      accountStep parse b1 = .ok acct →
      get strat.userProfileUsername tok = .ok b2 →
      parse b2 = .ok (.obj fs2) →
      jsLookup fs2 "username" = none →
      get strat.userProfileEmail tok = .ok b3 →
      emailStep parse b3 = .ok em →
      (userProfile parse strat get tok).dones =
        [.ok { provider := "envato", image := acct.image, firstname := acct.firstname,
               surname := acct.surname, available_earnings := acct.available_earnings,
               total_deposits := acct.total_deposits, balance := acct.balance,
               country := acct.country, _raw := b1, _json := acct.json,
               username := .undefined, email := em }]) ∧
    (∀ b1 acct b2 un b3 fs3,
      get strat.userProfileURL tok = .ok b1 →
      accountStep parse b1 = .ok acct →
      get strat.userProfileUsername tok = .ok b2 →
      usernameStep parse b2 = .ok un →
      get strat.userProfileEmail tok = .ok b3 →
      parse b3 = .ok (.obj fs3) →
      jsLookup fs3 "email" = none →
      (userProfile parse strat get tok).dones =
        [.ok { provider := "envato", image := acct.image, firstname := acct.firstname,
               surname := acct.surname, available_earnings := acct.available_earnings,
               total_deposits := acct.total_deposits, balance := acct.balance,
               country := acct.country, _raw := b1, _json := acct.json,
               username := un, email := .undefined }]) := by
  constructor
  · intro b1 acct b2 fs2 b3 em h1 ha h2 hp2 hl h3 he
    have hu : usernameStep parse b2 = .ok .undefined := by
      unfold usernameStep
      rw [hp2]
      simp only [exceptBind_ok, memberAccess, hl, Option.getD_none]
    simp only [userProfile, h1, ha, h2, hu, h3, he]
  · intro b1 acct b2 un b3 fs3 h1 ha h2 hu h3 hp3 hl
    have he : emailStep parse b3 = .ok .undefined := by
      unfold emailStep
      rw [hp3]
      simp only [exceptBind_ok, memberAccess, hl, Option.getD_none]
    simp only [userProfile, h1, ha, h2, hu, h3, he]

/-- Witness for C10: an empty-object username response and, in turn, an
empty-object email response, each alongside otherwise successful mocks. -/
theorem missing_optional_fields_tolerated_witness :
    (userProfile mockParse defaultStrategy noUsernameGet "tok").dones =
      [.ok { provider := "envato", image := .str "i", firstname := .str "F",
             surname := .str "S", available_earnings := .str "1",
             total_deposits := .str "2", balance := .str "3", country := .str "C",
             _raw := accountBody, _json := accountJson,
             username := .undefined, email := .str "e@x.com" }] ∧
    (userProfile mockParse defaultStrategy noEmailGet "tok").dones =
      [.ok { provider := "envato", image := .str "i", firstname := .str "F",
             surname := .str "S", available_earnings := .str "1",
             total_deposits := .str "2", balance := .str "3", country := .str "C",
             _raw := accountBody, _json := accountJson,
             username := .str "u", email := .undefined }] :=
  ⟨(missing_optional_fields_tolerated mockParse defaultStrategy noUsernameGet "tok").1
      accountBody mockAccountData emptyObjBody [] emailBody (.str "e@x.com")
      rfl rfl rfl rfl rfl rfl rfl,
   (missing_optional_fields_tolerated mockParse defaultStrategy noEmailGet "tok").2
      accountBody mockAccountData usernameBody (.str "u") emptyObjBody []
      rfl rfl rfl rfl rfl rfl rfl⟩

end PassportEnvato
